import Mathlib

/- Shallow embedding of src/hooks/useAuth.tsx: the AuthProvider component
   of the repository. The provider asks an external auth service for the
   current session at startup, listens for change events, maps the
   provider user record to the local application user record, and exposes
   signIn and signOut pass-through actions together with loading and
   authenticated flags. -/

namespace UseAuth

/-- Free-form metadata map carried by a provider session user
(user_metadata in the source); every consumed field is optional. -/
structure UserMetadata where
  full_name : Option String
  company_name : Option String
  role : Option String
  permissions : Option (List String)
deriving DecidableEq

/-- The provider session user (SupabaseUser in the source): identifier,
optional email, and the metadata map. -/
structure SessionUser where
  id : String
  email : Option String
  user_metadata : UserMetadata
deriving DecidableEq

/-- The application user record (type User of the repository); field order
follows the object literal built in the source at lines 47 to 55. -/
structure User where
  id : String
  email : String
  password : String
  fullName : String
  companyName : String
  role : String
  permissions : List String
deriving DecidableEq

/-- JavaScript `a || b` on strings: the empty string is falsy. -/
def jsOr (a b : String) : String :=
  if a = "" then b else a

/-- JavaScript `x?.f || b` where the field access may be undefined. -/
def optOr (a : Option String) (b : String) : String :=
  match a with
  | none => b
  | some s => jsOr s b

/-- JavaScript `email.split(c)[0]` for the separator at-sign: the part of
the string before the first at-sign, the whole string when none occurs. -/
def localPart (s : String) : String :=
  String.mk (s.toList.takeWhile (fun c => c != ('@')))

/-- The conversion from a provider session user to the application user,
written identically at lines 47 to 55 and 65 to 73 of the source. -/
def mapSession (user : SessionUser) : User :=
  { id := user.id
    email := user.email.getD ("")
    password := ""
    fullName := optOr user.user_metadata.full_name
      (optOr (user.email.map localPart) (""))
    companyName := optOr user.user_metadata.company_name ("")
    role := if user.user_metadata.role = some ("Admin")
      then ("Admin") else ("Member")
    permissions := user.user_metadata.permissions.getD [] }

/-- The local component state: application user, provider raw user, and
the loading flag (the three useState cells of AuthProvider). -/
structure AuthState where
  user : Option User
  supabaseUser : Option SessionUser
  isLoading : Bool
deriving DecidableEq

/-- The authenticated flag exposed to consumers: `!!user`. -/
def isAuthenticated (s : AuthState) : Bool :=
  s.user.isSome

/-- State right after mount: user null, supabaseUser null, isLoading true
(lines 37 to 39 of the source). -/
def initState : AuthState :=
  { user := none, supabaseUser := none, isLoading := true }

/-- The startup fetch callback (lines 43 to 59): store the raw provider
user; when it is present also store the mapped application user; finally
clear the loading flag. When the report carries no user, the application
user cell is left untouched. -/
def handleStartup (r : Option SessionUser) (s : AuthState) : AuthState :=
  match r with
  | some u =>
      { user := some (mapSession u), supabaseUser := some u,
        isLoading := false }
  | none =>
      { s with supabaseUser := none, isLoading := false }

/-- The change-event callback (lines 62 to 80): with a session user, store
both the raw and the mapped user; with no session user, clear both cells;
either way clear the loading flag. -/
def handleChange (r : Option SessionUser) (_s : AuthState) : AuthState :=
  match r with
  | some u =>
      { user := some (mapSession u), supabaseUser := some u,
        isLoading := false }
  | none =>
      { user := none, supabaseUser := none, isLoading := false }

/-- An opaque provider error indicator; `none` models a null error. -/
def AuthError := String
deriving instance DecidableEq for AuthError

/-- The observable course of a signIn call: the state while the provider
call is pending, the state after it returns, and the returned error. -/
structure SignInTrace where
  midState : AuthState
  finalState : AuthState
  returned : Option AuthError
deriving DecidableEq

/-- The signIn action (lines 85 to 90): set loading, await the provider,
clear loading, and hand the provider error field back to the caller. The
parameter res is the error field of the provider response. -/
def signIn (s : AuthState) (res : Option AuthError) : SignInTrace :=
  let mid : AuthState := { s with isLoading := true }
  { midState := mid
    finalState := { mid with isLoading := false }
    returned := res }

/-- The observable course of a signOut call. -/
structure SignOutTrace where
  midState : AuthState
  finalState : AuthState
deriving DecidableEq

/-- The signOut action (lines 92 to 98): set loading, await the provider
(its response is discarded), clear both user cells, clear loading. -/
def signOut (s : AuthState) (_res : Option AuthError) : SignOutTrace :=
  let mid : AuthState := { s with isLoading := true }
  { midState := mid
    finalState :=
      { user := none, supabaseUser := none, isLoading := false } }

/-- One observable event in the lifetime of the provider component:
resolution of the startup fetch, a change event, completion of a signIn
call, or completion of a signOut call. -/
inductive AuthEvent where
  | startup (r : Option SessionUser)
  | change (r : Option SessionUser)
  | signInDone (res : Option AuthError)
  | signOutDone (res : Option AuthError)
deriving DecidableEq

/-- True of the two session-report events (startup fetch and change
event), false of the explicit signIn and signOut calls. -/
def sessionEvent : AuthEvent → Bool
  | AuthEvent.startup _ => true
  | AuthEvent.change _ => true
  | AuthEvent.signInDone _ => false
  | AuthEvent.signOutDone _ => false

/-- Apply one event to the component state. -/
def step (s : AuthState) (e : AuthEvent) : AuthState :=
  match e with
  | AuthEvent.startup r => handleStartup r s
  | AuthEvent.change r => handleChange r s
  | AuthEvent.signInDone res => (signIn s res).finalState
  | AuthEvent.signOutDone res => (signOut s res).finalState

/-- Apply a list of events in order. -/
def run (s : AuthState) (es : List AuthEvent) : AuthState :=
  es.foldl step s

/- Concrete fixtures used by example theorems, witnesses and
   counterexamples. -/

/-- A metadata map with every consumed field absent. -/
def mdEmpty : UserMetadata :=
  { full_name := none, company_name := none, role := none,
    permissions := none }

/-- The example session of the spec: id u1, email a at x.com, empty
metadata. -/
def sessionA : SessionUser :=
  { id := "u1", email := some ("a@x.com"), user_metadata := mdEmpty }

/-- A second concrete session. -/
def sessionB : SessionUser :=
  { id := "u2", email := some ("b@y.com"), user_metadata := mdEmpty }

/-- A third concrete session. -/
def sessionC : SessionUser :=
  { id := "u3", email := some ("c@z.org"), user_metadata := mdEmpty }

/-- A prior state holding an application user mapped from sessionB; such a
state is reached when a change event delivering sessionB fires before the
startup fetch resolves. -/
def stalePriorB : AuthState :=
  { user := some (mapSession sessionB), supabaseUser := some sessionB,
    isLoading := false }

/-- A prior state holding the application user mapped from sessionC. -/
def stalePriorC : AuthState :=
  { user := some (mapSession sessionC), supabaseUser := some sessionC,
    isLoading := false }

/-- The no-password invariant of a component state: any stored application
user has an empty password field. -/
def PasswordInv (s : AuthState) : Prop :=
  ∀ u : User, s.user = some u → u.password = ""

/- Helper lemmas shared by the claim theorems. -/

/-- A session-report event (startup fetch or change event) always leaves
the loading flag false. -/
lemma step_session_isLoading (s : AuthState) (e : AuthEvent)
    (h : sessionEvent e = true) : (step s e).isLoading = false := by
  cases e with
  | startup r => cases r <;> rfl
  | change r => cases r <;> rfl
  | signInDone res => simp [sessionEvent] at h
  | signOutDone res => simp [sessionEvent] at h

/-- After a nonempty run of session-report events the loading flag is
false, from any starting state. -/
lemma run_session_isLoading :
    ∀ (es : List AuthEvent) (s : AuthState) (e : AuthEvent),
      sessionEvent e = true → (∀ x ∈ es, sessionEvent x = true) →
      (run s (e :: es)).isLoading = false := by
  intro es
  induction es with
  | nil => intro s e he _; exact step_session_isLoading s e he
  | cons e2 es2 ih =>
    intro s e he hall
    have h2 : sessionEvent e2 = true := hall e2 (by simp)
    have hall2 : ∀ x ∈ es2, sessionEvent x = true :=
      fun x hx => hall x (by simp [hx])
    exact ih (step s e) e2 h2 hall2

/-- Every event preserves the no-password invariant. -/
lemma step_password (s : AuthState) (e : AuthEvent) (h : PasswordInv s) :
    PasswordInv (step s e) := by
  intro u hu
  cases e with
  | startup r =>
    cases r with
    | none => exact h u hu
    | some su =>
      simp [step, handleStartup] at hu
      subst hu
      rfl
  | change r =>
    cases r with
    | none => exact Option.noConfusion hu
    | some su =>
      simp [step, handleChange] at hu
      subst hu
      rfl
  | signInDone res => exact h u hu
  | signOutDone res => exact Option.noConfusion hu

/-- Any run of events preserves the no-password invariant. -/
lemma run_password :
    ∀ (es : List AuthEvent) (s : AuthState), PasswordInv s →
      PasswordInv (run s es) := by
  intro es
  induction es with
  | nil => intro s h; exact h
  | cons e es2 ih => intro s h; exact ih (step s e) (step_password s e h)

/- Claim theorems. -/

/-- C1 counterexample: on a no-session report over a prior state that
holds an application user, the startup handler and the change-event
handler produce different states, so the two paths are not identical. -/
theorem startup_change_handlers_differ_cex :
    handleStartup none stalePriorB ≠ handleChange none stalePriorB := by
  decide

/-- C1 (amended): the two handlers agree on every session report; on a
no-session report both clear the raw provider user and the loading flag,
but the startup handler leaves the application user unchanged while the
change-event handler clears it. -/
theorem startup_change_handlers_amended :
    (∀ (u : SessionUser) (s : AuthState),
      handleStartup (some u) s = handleChange (some u) s) ∧
    (∀ s : AuthState,
      handleStartup none s =
        { s with supabaseUser := none, isLoading := false } ∧
      handleChange none s =
        { user := none, supabaseUser := none, isLoading := false }) :=
  ⟨fun _ _ => rfl, fun _ => ⟨rfl, rfl⟩⟩

/-- C2 counterexample: after the startup fetch reports no session over a
prior state holding an application user, the claimed conjunction (user
absent, raw user absent, not authenticated) fails. -/
theorem no_session_clear_cex :
    ¬((handleStartup none stalePriorC).user = none ∧
      (handleStartup none stalePriorC).supabaseUser = none ∧
      isAuthenticated (handleStartup none stalePriorC) = false) := by
  decide

/-- C2 (amended): on a no-session change event, the application user and
raw provider user become absent and the authenticated flag is false; on a
no-session startup fetch, only the raw provider user becomes absent while
the application user keeps its prior value. -/
theorem no_session_clear_amended (s : AuthState) :
    ((handleChange none s).user = none ∧
     (handleChange none s).supabaseUser = none ∧
     isAuthenticated (handleChange none s) = false) ∧
    ((handleStartup none s).supabaseUser = none ∧
     (handleStartup none s).user = s.user ∧
     (handleStartup none s).isLoading = false) :=
  ⟨⟨rfl, rfl, rfl⟩, ⟨rfl, rfl, rfl⟩⟩

/-- C3: the mapped role is Admin exactly when the metadata role field is
the string Admin; every other value, absence included, maps to Member. -/
theorem role_admin_iff (u : SessionUser) :
    ((mapSession u).role = "Admin" ↔
      u.user_metadata.role = some ("Admin")) ∧
    (u.user_metadata.role ≠ some ("Admin") →
      (mapSession u).role = "Member") := by
  by_cases hc : u.user_metadata.role = some ("Admin")
  · simp [mapSession, hc]
  · simp [mapSession, hc]

/-- C3 witness at the concrete session with absent role. -/
theorem role_admin_iff_witness :
    (mapSession sessionA).role = "Member" :=
  (role_admin_iff sessionA).2 (by decide)

/-- C4: when the metadata full-name field is absent, the mapped display
name is the part of the session email before the first at-sign. -/
theorem fullName_localpart_default (u : SessionUser) (e : String)
    (hfn : u.user_metadata.full_name = none) (he : u.email = some e) :
    (mapSession u).fullName = localPart e := by
  by_cases h0 : localPart e = ""
  · simp [mapSession, hfn, he, optOr, jsOr, h0]
  · simp [mapSession, hfn, he, optOr, jsOr, h0]

/-- C4 witness at the concrete session with absent full name. -/
theorem fullName_localpart_default_witness :
    (mapSession sessionA).fullName = localPart ("a@x.com") :=
  fullName_localpart_default sessionA ("a@x.com") rfl rfl

/-- C5: whatever the prior state and whatever the provider response to the
sign-out call, the final state of signOut has no application user, no raw
provider user, and the loading flag false. -/
theorem signOut_clears_state (s : AuthState) (res : Option AuthError) :
    (signOut s res).finalState.user = none ∧
    (signOut s res).finalState.supabaseUser = none ∧
    (signOut s res).finalState.isLoading = false :=
  ⟨rfl, rfl, rfl⟩

/-- C6: signIn hands the provider error indicator back to the caller
unchanged (none models a null error), with the loading flag true during
the provider call and false after it; the embedding is a total function,
so no exception escapes. -/
theorem signIn_returns_provider_error (s : AuthState)
    (res : Option AuthError) :
    (signIn s res).returned = res ∧
    (signIn s res).midState.isLoading = true ∧
    (signIn s res).finalState.isLoading = false :=
  ⟨rfl, rfl, rfl⟩

/-- C7: the loading flag is true right after mount; it is false after any
nonempty sequence of session-report events (startup fetch or change
events), however they interleave; and the explicit signIn and signOut
calls are the actions that set it true again while they run. -/
theorem isLoading_first_resolution :
    initState.isLoading = true ∧
    (∀ (e : AuthEvent) (es : List AuthEvent), sessionEvent e = true →
      (∀ x ∈ es, sessionEvent x = true) →
      (run initState (e :: es)).isLoading = false) ∧
    (∀ (s : AuthState) (res : Option AuthError),
      (signIn s res).midState.isLoading = true) ∧
    (∀ (s : AuthState) (res : Option AuthError),
      (signOut s res).midState.isLoading = true) :=
  ⟨rfl,
   fun e es he hall => run_session_isLoading es initState e he hall,
   fun _ _ => rfl, fun _ _ => rfl⟩

/-- C7 witness: the first change event resolving with no session drops the
loading flag. -/
theorem isLoading_first_resolution_witness :
    (run initState [AuthEvent.change none]).isLoading = false :=
  isLoading_first_resolution.2.1 (AuthEvent.change none) [] rfl
    (by intro x hx; cases hx)

/-- C8: the mapping writes an empty password for every provider session,
and along every event trace from the mount state any stored application
user has an empty password field. -/
theorem password_never_populated :
    (∀ u : SessionUser, (mapSession u).password = "") ∧
    (∀ (es : List AuthEvent) (u : User),
      (run initState es).user = some u → u.password = "") :=
  ⟨fun _ => rfl,
   fun es u hu =>
     run_password es initState (fun _ h => Option.noConfusion h) u hu⟩

/-- C8 witness on the trace of one startup fetch delivering the concrete
session. -/
theorem password_never_populated_witness :
    (mapSession sessionA).password = "" :=
  password_never_populated.2 [AuthEvent.startup (some sessionA)]
    (mapSession sessionA) rfl

/-- C9: the concrete session with empty metadata maps to the application
user with display name from the email local part, empty company name,
Member role, and empty permission list. -/
theorem example_session_mapping :
    mapSession sessionA =
      { id := "u1", email := "a@x.com", password := "", fullName := "a",
        companyName := "", role := "Member", permissions := [] } := by
  decide

/-- C10: signIn never touches the user cells: in the state during the
provider call and in the final state, the application user and the raw
provider user equal the prior values, and the final state differs from
the prior state in the loading flag alone. -/
theorem signIn_frame (s : AuthState) (res : Option AuthError) :
    (signIn s res).midState.user = s.user ∧
    (signIn s res).midState.supabaseUser = s.supabaseUser ∧
    (signIn s res).finalState.user = s.user ∧
    (signIn s res).finalState.supabaseUser = s.supabaseUser ∧
    (signIn s res).finalState = { s with isLoading := false } :=
  ⟨rfl, rfl, rfl, rfl, rfl⟩

end UseAuth
